import Mathlib

/-!
A formal model of the fatigue-scoring state machine implemented in
`src/main.py` of the Anti-sleep repository.

The code under scrutiny is `VideoCamera.get_frame` (main.py lines 57-135)
together with its global configuration: the constant `SLEEP_THRESHOLD`
(line 11), the per-instance fatigue score `self.score` (line 51) and the
module-global alarm latch `alarm_active` (line 29).  The image-processing
collaborators (face cascade, eye cascade) are abstracted as their results:
per frame, a list of detected face regions, each carrying the number of eye
sub-regions detected inside it.  The pygame sound object is abstracted to
whether it was loaded (`alarm_sound is not None`, lines 22-27) and to the
commands the code sends it (`play(-1)` at line 108, `stop()` at line 121).
-/

set_option maxRecDepth 8000

namespace AntiSleep

/-- `SLEEP_THRESHOLD` from main.py line 11: number of frames eyes must be
closed before the alarm fires. -/
def SLEEP_THRESHOLD : Int := 15

/-- An alarm command emitted as a side effect during a frame: `StartLoop`
is `alarm_sound.play(-1)` (line 108), `Stop` is `alarm_sound.stop()`
(line 121). -/
inductive Cmd where
  | StartLoop : Cmd
  | Stop : Cmd
deriving DecidableEq, Repr

/-- The mutable state read and written by one evaluation of
`VideoCamera.get_frame`: the fatigue score `self.score` (line 51) and the
alarm latch `alarm_active` (line 29).  The score is a Python `int` in the
source, so it is modelled as `Int`; its nonnegativity is proved, never
assumed. -/
structure MachineState where
  score : Int
  alarm : Bool
deriving DecidableEq, Repr

/-- The state at session start: `self.score = 0` (line 51) and
`alarm_active = False` (line 29). -/
def initState : MachineState := { score := 0, alarm := false }

/-- One iteration of the face loop in `get_frame` (lines 82-126): `eyes` is
the number of eye sub-regions the eye cascade returned inside this face
region, `sound` is whether `alarm_sound` is not `None`.  Returns the new
state, the status string this iteration leaves behind, and the alarm
command it emits, if any.  Branches mirror lines 93-109 (eyes closed:
increment, alert above threshold, play sound if the latch is off and the
sound is loaded) and lines 110-122 (eyes open: decrement clamped at 0,
stop the sound if the latch is on and the sound is loaded). -/
def stepFace (sound : Bool) (eyes : Nat) (s : MachineState) :
    MachineState × String × Option Cmd :=
  if eyes = 0 then
    let sc := s.score + 1
    if SLEEP_THRESHOLD < sc then
      if s.alarm = false ∧ sound = true then
        (⟨sc, true⟩, "DROWSINESS ALERT!", some Cmd.StartLoop)
      else
        (⟨sc, s.alarm⟩, "DROWSINESS ALERT!", none)
    else
      (⟨sc, s.alarm⟩, "Eyes Closed", none)
  else
    let d := s.score - 1
    let sc := if d < 0 then 0 else d
    if s.alarm = true ∧ sound = true then
      (⟨sc, false⟩, "Awake", some Cmd.Stop)
    else
      (⟨sc, s.alarm⟩, "Awake", none)

/-- The observable outcome of one `get_frame` evaluation: final state,
final status string, and the alarm commands emitted during the frame, in
emission order. -/
structure FrameOut where
  state : MachineState
  status : String
  cmds : List Cmd
deriving DecidableEq, Repr

/-- The `for (x, y, w, h) in faces` loop of `get_frame` (lines 82-126)
over the remaining face regions, threading state, status and emitted
commands through the iterations. -/
def runFaces (sound : Bool) : List Nat → FrameOut → FrameOut
  | [], o => o
  | e :: rest, o =>
      let r := stepFace sound e o.state
      runFaces sound rest ⟨r.1, r.2.1, o.cmds ++ r.2.2.toList⟩

/-- One evaluation of `VideoCamera.get_frame` (lines 57-135) restricted to
the fatigue logic: `faces` lists, for each face region returned by the
face cascade and in iteration order, the number of eye sub-regions found
inside it.  Lines 74-80: the status starts as "Active"; with no faces the
score is reset to 0 and the status becomes "No Face Found" (the latch is
untouched); otherwise the face loop runs. -/
def getFrame (sound : Bool) (faces : List Nat) (s : MachineState) : FrameOut :=
  if faces = [] then
    ⟨⟨0, s.alarm⟩, "No Face Found", []⟩
  else
    runFaces sound faces ⟨s, "Active", []⟩

/-- One detection sample as described by the spec: whether a face was
found and, if so, how many eyes were located inside it. -/
structure DetectionSample where
  faceFound : Bool
  eyesFoundCount : Nat
deriving DecidableEq, Repr

/-- The face-region list a single sample stands for: a frame with exactly
one face region (carrying the sample's eye count) or with none. -/
def sampleFaces (a : DetectionSample) : List Nat :=
  if a.faceFound = true then [a.eyesFoundCount] else []

/-- Processing one detection sample: `get_frame` on the corresponding
single-face (or face-less) frame. -/
def step (sound : Bool) (a : DetectionSample) (s : MachineState) : FrameOut :=
  getFrame sound (sampleFaces a) s

/-- The state after processing a list of samples in order. -/
def runSamples (sound : Bool) (as : List DetectionSample) (s : MachineState) :
    MachineState :=
  as.foldl (fun t a => (step sound a t).state) s

/-- The list of states after each sample, in order. -/
def stateTrace (sound : Bool) : MachineState → List DetectionSample → List MachineState
  | _, [] => []
  | s, a :: rest =>
      let t := (step sound a s).state
      t :: stateTrace sound t rest

/-- The process-wide mutable state when two `VideoCamera` instances
coexist (e.g. two viewers of `/video_feed`, main.py lines 151-154): each
instance owns its `self.score` (line 51) while `alarm_active` (line 29)
is a single module-global flag read and written by every instance. -/
structure TwoSessions where
  alarm : Bool
  scoreA : Int
  scoreB : Int
deriving DecidableEq, Repr

/-- Creating a fresh `VideoCamera` for session B (lines 49-52): its
`self.score` starts at 0; the `global alarm_active` declaration in
`__init__` does not write the flag, so the global latch keeps its current
value. -/
def newSessionB (t : TwoSessions) : TwoSessions :=
  { t with scoreB := 0 }

/-- `get_frame` executed by one of the two instances (`onA` selects
which): it reads and writes its own score and the shared global latch;
the other instance's score is untouched. -/
def frameOn (onA : Bool) (sound : Bool) (faces : List Nat) (t : TwoSessions) :
    TwoSessions :=
  if onA = true then
    let o := getFrame sound faces ⟨t.scoreA, t.alarm⟩
    { t with scoreA := o.state.score, alarm := o.state.alarm }
  else
    let o := getFrame sound faces ⟨t.scoreB, t.alarm⟩
    { t with scoreB := o.state.score, alarm := o.state.alarm }

/-- Sixteen consecutive single-face eyes-closed frames processed by
session A only, starting from a fresh process (latch off, both scores 0),
with the alarm sound loaded. -/
def sessionDemo : TwoSessions :=
  (List.replicate 16 ([0] : List Nat)).foldl
    (fun t f => frameOn true true f t) ⟨false, 0, 0⟩

/-! ### Characterizations of a single sample step -/

/-- A face-lost sample: the no-face branch of lines 78-80. -/
theorem step_noFace_eq (sound : Bool) (n : Nat) (s : MachineState) :
    step sound ⟨false, n⟩ s = ⟨⟨0, s.alarm⟩, "No Face Found", []⟩ := by
  simp [step, sampleFaces, getFrame]

/-- A single-face frame is one pass of the face loop. -/
theorem step_single_eq (sound : Bool) (n : Nat) (s : MachineState) :
    step sound ⟨true, n⟩ s =
      ⟨(stepFace sound n s).1, (stepFace sound n s).2.1,
        (stepFace sound n s).2.2.toList⟩ := by
  simp [step, sampleFaces, getFrame, runFaces]

/-- The eyes-closed branch of the face loop: lines 93-109. -/
theorem stepFace_closed_eq (sound : Bool) (s : MachineState) :
    stepFace sound 0 s =
      if SLEEP_THRESHOLD < s.score + 1 then
        if s.alarm = false ∧ sound = true then
          (⟨s.score + 1, true⟩, "DROWSINESS ALERT!", some Cmd.StartLoop)
        else
          (⟨s.score + 1, s.alarm⟩, "DROWSINESS ALERT!", none)
      else
        (⟨s.score + 1, s.alarm⟩, "Eyes Closed", none) := rfl

/-- The eyes-open branch of the face loop: lines 110-122. -/
theorem stepFace_open_eq (sound : Bool) (n : Nat) (s : MachineState) :
    stepFace sound (n + 1) s =
      if s.alarm = true ∧ sound = true then
        (⟨if s.score - 1 < 0 then 0 else s.score - 1, false⟩, "Awake", some Cmd.Stop)
      else
        (⟨if s.score - 1 < 0 then 0 else s.score - 1, s.alarm⟩, "Awake", none) := rfl

/-- An eyes-closed sample (face present, zero eyes): lines 93-109. -/
theorem step_closed_eq (sound : Bool) (s : MachineState) :
    step sound ⟨true, 0⟩ s =
      if SLEEP_THRESHOLD < s.score + 1 then
        if s.alarm = false ∧ sound = true then
          ⟨⟨s.score + 1, true⟩, "DROWSINESS ALERT!", [Cmd.StartLoop]⟩
        else
          ⟨⟨s.score + 1, s.alarm⟩, "DROWSINESS ALERT!", []⟩
      else
        ⟨⟨s.score + 1, s.alarm⟩, "Eyes Closed", []⟩ := by
  rw [step_single_eq, stepFace_closed_eq]
  by_cases h1 : SLEEP_THRESHOLD < s.score + 1
  · by_cases h2 : s.alarm = false ∧ sound = true <;> simp [h1, h2]
  · simp [h1]

/-- An eyes-open sample (face present, at least one eye): lines 110-122. -/
theorem step_open_eq (sound : Bool) (n : Nat) (s : MachineState) :
    step sound ⟨true, n + 1⟩ s =
      if s.alarm = true ∧ sound = true then
        ⟨⟨if s.score - 1 < 0 then 0 else s.score - 1, false⟩, "Awake", [Cmd.Stop]⟩
      else
        ⟨⟨if s.score - 1 < 0 then 0 else s.score - 1, s.alarm⟩, "Awake", []⟩ := by
  rw [step_single_eq, stepFace_open_eq]
  by_cases h2 : s.alarm = true ∧ sound = true <;> simp [h2]

/-! ### Basic run lemmas -/

theorem runSamples_nil (sound : Bool) (s : MachineState) :
    runSamples sound [] s = s := rfl

theorem runSamples_append (sound : Bool) (p q : List DetectionSample)
    (s : MachineState) :
    runSamples sound (p ++ q) s = runSamples sound q (runSamples sound p s) := by
  simp [runSamples, List.foldl_append]

theorem runSamples_snoc (sound : Bool) (as : List DetectionSample)
    (a : DetectionSample) (s : MachineState) :
    runSamples sound (as ++ [a]) s = (step sound a (runSamples sound as s)).state := by
  simp [runSamples, List.foldl_append]

theorem runFaces_append (sound : Bool) (fs gs : List Nat) (o : FrameOut) :
    runFaces sound (fs ++ gs) o = runFaces sound gs (runFaces sound fs o) := by
  induction fs generalizing o with
  | nil => rfl
  | cons e rest ih => simp [runFaces, ih]

/-! ### Score nonnegativity -/

theorem stepFace_score_nonneg (sound : Bool) (e : Nat) (s : MachineState)
    (h : 0 ≤ s.score) : 0 ≤ (stepFace sound e s).1.score := by
  cases e with
  | zero =>
      rw [stepFace_closed_eq]
      by_cases h1 : SLEEP_THRESHOLD < s.score + 1
      · by_cases h2 : s.alarm = false ∧ sound = true <;> simp [h1, h2] <;> omega
      · simp [h1]; omega
  | succ n =>
      rw [stepFace_open_eq]
      by_cases h2 : s.alarm = true ∧ sound = true <;>
        simp [h2] <;> split <;> omega

theorem runFaces_score_nonneg (sound : Bool) (fs : List Nat) (o : FrameOut)
    (h : 0 ≤ o.state.score) : 0 ≤ (runFaces sound fs o).state.score := by
  induction fs generalizing o with
  | nil => exact h
  | cons e rest ih =>
      simp only [runFaces]
      exact ih _ (stepFace_score_nonneg sound e o.state h)

theorem getFrame_score_nonneg (sound : Bool) (faces : List Nat)
    (s : MachineState) (h : 0 ≤ s.score) :
    0 ≤ (getFrame sound faces s).state.score := by
  unfold getFrame
  split
  · simp
  · exact runFaces_score_nonneg sound faces _ h

theorem stateTrace_score_nonneg (sound : Bool) (as : List DetectionSample)
    (s : MachineState) (hs : 0 ≤ s.score) (t : MachineState)
    (ht : t ∈ stateTrace sound s as) : 0 ≤ t.score := by
  induction as generalizing s with
  | nil => simp [stateTrace] at ht
  | cons a rest ih =>
      simp only [stateTrace, List.mem_cons] at ht
      have hstep : 0 ≤ (step sound a s).state.score :=
        getFrame_score_nonneg sound (sampleFaces a) s hs
      rcases ht with ht | ht
      · rw [ht]; exact hstep
      · exact ih _ hstep ht

/-! ### Latch behaviour -/

/-- The only way a sample turns the latch from off to on: the sound must
be loaded, a face must be present with zero eyes, and the incremented
score must exceed the threshold (lines 107-109). -/
theorem step_alarm_on_of_off (sound : Bool) (a : DetectionSample)
    (s : MachineState) (hoff : s.alarm = false)
    (hon : (step sound a s).state.alarm = true) :
    sound = true ∧ a.faceFound = true ∧ a.eyesFoundCount = 0 ∧
      SLEEP_THRESHOLD < s.score + 1 ∧
      (step sound a s).state.score = s.score + 1 := by
  rcases a with ⟨f, n⟩
  cases f
  · rw [step_noFace_eq] at hon
    simp [hoff] at hon
  · cases n with
    | zero =>
        by_cases h1 : SLEEP_THRESHOLD < s.score + 1
        · by_cases h2 : s.alarm = false ∧ sound = true
          · refine ⟨h2.2, rfl, rfl, h1, ?_⟩
            rw [step_closed_eq, if_pos h1, if_pos h2]
          · rw [step_closed_eq, if_pos h1, if_neg h2] at hon
            simp [hoff] at hon
        · rw [step_closed_eq, if_neg h1] at hon
          simp [hoff] at hon
    | succ m =>
        by_cases h2 : s.alarm = true ∧ sound = true
        · exact absurd h2.1 (by simp [hoff])
        · rw [step_open_eq, if_neg h2] at hon
          simp [hoff] at hon

/-- With the sound object missing, one face-loop iteration never writes
the latch (both writes at lines 107-109 and 120-122 are guarded on
`alarm_sound`). -/
theorem stepFace_alarm_no_sound (e : Nat) (s : MachineState) :
    (stepFace false e s).1.alarm = s.alarm := by
  cases e with
  | zero =>
      rw [stepFace_closed_eq]
      by_cases h1 : SLEEP_THRESHOLD < s.score + 1 <;> simp [h1]
  | succ n =>
      rw [stepFace_open_eq]
      simp

theorem runFaces_alarm_no_sound (fs : List Nat) (o : FrameOut) :
    (runFaces false fs o).state.alarm = o.state.alarm := by
  induction fs generalizing o with
  | nil => rfl
  | cons e rest ih =>
      simp only [runFaces]
      rw [ih]
      exact stepFace_alarm_no_sound e o.state

theorem getFrame_alarm_no_sound (faces : List Nat) (s : MachineState) :
    (getFrame false faces s).state.alarm = s.alarm := by
  unfold getFrame
  split
  · rfl
  · exact runFaces_alarm_no_sound faces _

theorem runSamples_cons (sound : Bool) (a : DetectionSample)
    (as : List DetectionSample) (s : MachineState) :
    runSamples sound (a :: as) s = runSamples sound as (step sound a s).state := rfl

theorem runSamples_alarm_no_sound (as : List DetectionSample) (s : MachineState) :
    (runSamples false as s).alarm = s.alarm := by
  induction as generalizing s with
  | nil => rfl
  | cons a rest ih =>
      rw [runSamples_cons, ih]
      exact getFrame_alarm_no_sound (sampleFaces a) s

/-! ### Claim theorems -/

/-- C3: starting from the initial state (score 0), the score is
nonnegative after every step of every sample sequence: the eyes-open
decrement is clamped at 0 and no branch drives the score negative. -/
theorem score_nonneg_along_runs (sound : Bool) (as : List DetectionSample)
    (t : MachineState) (ht : t ∈ stateTrace sound initState as) : 0 ≤ t.score :=
  stateTrace_score_nonneg sound as initState (by simp [initState]) t ht

theorem score_nonneg_along_runs_witness :
    (⟨1, false⟩ : MachineState) ∈ stateTrace true initState [⟨true, 0⟩] ∧
      (0 : Int) ≤ MachineState.score ⟨1, false⟩ :=
  ⟨by decide, score_nonneg_along_runs true [⟨true, 0⟩] ⟨1, false⟩ (by decide)⟩

/-- C4: processing one sample with no face found sets the score to 0,
reports "No Face Found", emits no alarm command, and leaves the alarm
latch exactly as it was, whatever the prior state. -/
theorem noFace_resets_score_keeps_latch (sound : Bool) (n : Nat)
    (s : MachineState) :
    (step sound ⟨false, n⟩ s).state.score = 0 ∧
      (step sound ⟨false, n⟩ s).status = "No Face Found" ∧
      (step sound ⟨false, n⟩ s).state.alarm = s.alarm ∧
      (step sound ⟨false, n⟩ s).cmds = [] := by
  rw [step_noFace_eq]
  exact ⟨rfl, rfl, rfl, rfl⟩

/-- C5: an eyes-closed sample (face present, zero eyes) increments the
score by exactly 1 with no upper bound; if the new score exceeds the
threshold the status is "DROWSINESS ALERT!", the latch ends up on, and the
start command is sent exactly when the latch was off (no repeated
activation); otherwise the status is "Eyes Closed" and the latch is
unchanged.  Stated with the alarm sound loaded. -/
theorem eyesClosed_increments_and_alerts (s : MachineState) :
    (step true ⟨true, 0⟩ s).state.score = s.score + 1 ∧
      (SLEEP_THRESHOLD < s.score + 1 →
        (step true ⟨true, 0⟩ s).status = "DROWSINESS ALERT!" ∧
        (step true ⟨true, 0⟩ s).state.alarm = true ∧
        ((step true ⟨true, 0⟩ s).cmds = [Cmd.StartLoop] ↔ s.alarm = false) ∧
        (s.alarm = true → (step true ⟨true, 0⟩ s).cmds = [])) ∧
      (¬ SLEEP_THRESHOLD < s.score + 1 →
        (step true ⟨true, 0⟩ s).status = "Eyes Closed" ∧
        (step true ⟨true, 0⟩ s).state.alarm = s.alarm ∧
        (step true ⟨true, 0⟩ s).cmds = []) := by
  by_cases h1 : SLEEP_THRESHOLD < s.score + 1
  · cases ha : s.alarm with
    | false =>
        rw [step_closed_eq, if_pos h1, if_pos ⟨ha, rfl⟩]
        exact ⟨rfl, fun _ => ⟨rfl, rfl, by simp [ha], by simp [ha]⟩,
          fun h => absurd h1 h⟩
    | true =>
        rw [step_closed_eq, if_pos h1, if_neg (by simp [ha])]
        exact ⟨rfl, fun _ => ⟨rfl, by simp [ha], by simp [ha], fun _ => rfl⟩,
          fun h => absurd h1 h⟩
  · rw [step_closed_eq, if_neg h1]
    exact ⟨rfl, fun h => absurd h h1, fun _ => ⟨rfl, rfl, rfl⟩⟩

theorem eyesClosed_increments_and_alerts_witness :
    (step true ⟨true, 0⟩ ⟨20, false⟩).state.score = 21 ∧
      (step true ⟨true, 0⟩ ⟨20, false⟩).status = "DROWSINESS ALERT!" ∧
      (step true ⟨true, 0⟩ ⟨20, false⟩).cmds = [Cmd.StartLoop] := by
  have h := eyesClosed_increments_and_alerts ⟨20, false⟩
  exact ⟨h.1.trans (by decide), (h.2.1 (by decide)).1,
    (h.2.1 (by decide)).2.2.1.mpr rfl⟩

/-- C6: an eyes-open sample (face present, at least one eye) decrements
the score by 1 clamped at 0, reports "Awake", and leaves the latch off
unconditionally — the stop command is sent exactly when the latch was on,
regardless of the score value.  Stated with the alarm sound loaded. -/
theorem eyesOpen_decrements_and_clears_latch (n : Nat) (s : MachineState) :
    (step true ⟨true, n + 1⟩ s).state.score
        = (if s.score - 1 < 0 then 0 else s.score - 1) ∧
      (step true ⟨true, n + 1⟩ s).status = "Awake" ∧
      (step true ⟨true, n + 1⟩ s).state.alarm = false ∧
      ((step true ⟨true, n + 1⟩ s).cmds = [Cmd.Stop] ↔ s.alarm = true) := by
  cases ha : s.alarm with
  | false =>
      rw [step_open_eq, if_neg (by simp [ha])]
      exact ⟨rfl, rfl, ha, by simp [ha]⟩
  | true =>
      rw [step_open_eq, if_pos ⟨ha, rfl⟩]
      exact ⟨rfl, rfl, rfl, by simp [ha]⟩

/-- C10: with the alarm audio missing (`alarm_sound is None`), the latch
stays False along every run from the initial state; an eyes-closed sample
still increments the score and still reports the alert status above the
threshold, but never writes the latch, because both latch writes are
guarded on the sound object. -/
theorem missing_sound_latch_stays_off (as : List DetectionSample)
    (s : MachineState) :
    (runSamples false as initState).alarm = false ∧
      (step false ⟨true, 0⟩ s).state.score = s.score + 1 ∧
      (step false ⟨true, 0⟩ s).state.alarm = s.alarm ∧
      (SLEEP_THRESHOLD < s.score + 1 →
        (step false ⟨true, 0⟩ s).status = "DROWSINESS ALERT!") ∧
      (step false ⟨true, 0⟩ s).cmds = [] := by
  refine ⟨(runSamples_alarm_no_sound as initState).trans rfl, ?_⟩
  by_cases h1 : SLEEP_THRESHOLD < s.score + 1
  · rw [step_closed_eq, if_pos h1, if_neg (by simp)]
    exact ⟨rfl, rfl, fun _ => rfl, rfl⟩
  · rw [step_closed_eq, if_neg h1]
    exact ⟨rfl, rfl, fun h => absurd h h1, rfl⟩

theorem missing_sound_latch_stays_off_witness :
    (runSamples false (List.replicate 16 ⟨true, 0⟩) initState).alarm = false ∧
      (step false ⟨true, 0⟩ ⟨20, false⟩).status = "DROWSINESS ALERT!" := by
  have h := missing_sound_latch_stays_off (List.replicate 16 ⟨true, 0⟩) ⟨20, false⟩
  exact ⟨h.1, h.2.2.2.1 (by decide)⟩

/-- C1 counterexample: with the sound loaded, 17 eyes-closed samples leave
score 17 and the latch on; one eyes-open sample clears the latch while the
score (16) stays above the threshold; the next eyes-closed sample then
turns the latch Off→On although the score was already above the threshold
before that step, so the latch turns on at a step that is not a first
threshold crossing. -/
theorem latch_rearms_above_threshold_cex :
    (runSamples true (List.replicate 17 ⟨true, 0⟩ ++ [⟨true, 2⟩]) initState).alarm
        = false ∧
      SLEEP_THRESHOLD <
        (runSamples true (List.replicate 17 ⟨true, 0⟩ ++ [⟨true, 2⟩])
          initState).score ∧
      (runSamples true ((List.replicate 17 ⟨true, 0⟩ ++ [⟨true, 2⟩]) ++ [⟨true, 0⟩])
          initState).alarm = true := by
  decide

/-- C1 amended: with the sound loaded, the latch transitions Off→On
exactly at eyes-closed steps where the incremented score exceeds the
threshold and the latch was off; the pre-step score need not be ≤ the
threshold, so the latch can re-arm at a step where the score was already
above it. -/
theorem latch_turnOn_characterization (a : DetectionSample) (s : MachineState) :
    ((step true a s).state.alarm = true ∧ s.alarm = false) ↔
      (a.faceFound = true ∧ a.eyesFoundCount = 0 ∧
        SLEEP_THRESHOLD < s.score + 1 ∧ s.alarm = false) := by
  constructor
  · rintro ⟨hon, hoff⟩
    obtain ⟨-, hf, he, hth, -⟩ := step_alarm_on_of_off true a s hoff hon
    exact ⟨hf, he, hth, hoff⟩
  · rintro ⟨hf, he, hth, hoff⟩
    rcases a with ⟨f, n⟩
    simp only at hf he
    subst hf
    subst he
    rw [step_closed_eq, if_pos hth, if_pos ⟨hoff, rfl⟩]
    exact ⟨rfl, hoff⟩

/-- C7: in every state reachable from the initial state, an active latch
means the run splits into a prefix `p` and a suffix `q` such that right
after `p` the score exceeded the threshold, and the latch has stayed on
from that point through the end of the run — so the score exceeded the
threshold at some step since the latch was last cleared (or since session
start, if it was never cleared). -/
theorem alarm_implies_threshold_since_clear (sound : Bool)
    (as : List DetectionSample)
    (h : (runSamples sound as initState).alarm = true) :
    ∃ p q, as = p ++ q ∧
      SLEEP_THRESHOLD < (runSamples sound p initState).score ∧
      ∀ n, n ≤ q.length →
        (runSamples sound (q.take n) (runSamples sound p initState)).alarm
          = true := by
  induction as using List.reverseRecOn with
  | nil => simp [runSamples, initState] at h
  | append_singleton as a ih =>
      rw [runSamples_snoc] at h
      by_cases hal : (runSamples sound as initState).alarm = true
      · obtain ⟨p, q, hpq, hsc, hstay⟩ := ih hal
        refine ⟨p, q ++ [a], by rw [hpq, List.append_assoc], hsc, ?_⟩
        intro n hn
        rcases le_or_lt n q.length with h1 | h1
        · rw [List.take_append_of_le_length h1]
          exact hstay n h1
        · have hn2 : n = q.length + 1 := by
            simp only [List.length_append, List.length_cons, List.length_nil] at hn
            omega
          subst hn2
          rw [List.take_of_length_le (by simp)]
          have hq : runSamples sound q (runSamples sound p initState)
              = runSamples sound as initState := by
            conv_rhs => rw [hpq]
            rw [runSamples_append]
          rw [runSamples_snoc, hq]
          exact h
      · have hoff : (runSamples sound as initState).alarm = false :=
          Bool.eq_false_iff.mpr hal
        obtain ⟨hsound, hf, he, hth, hsc⟩ :=
          step_alarm_on_of_off sound a (runSamples sound as initState) hoff h
        refine ⟨as ++ [a], [], (List.append_nil _).symm, ?_, ?_⟩
        · rw [runSamples_snoc, hsc]
          exact hth
        · intro n hn
          have hn0 : n = 0 := Nat.le_zero.mp hn
          subst hn0
          show (runSamples sound (as ++ [a]) initState).alarm = true
          rw [runSamples_snoc]
          exact h

theorem alarm_implies_threshold_since_clear_witness :
    (runSamples true (List.replicate 16 ⟨true, 0⟩) initState).alarm = true ∧
      (∃ p q, List.replicate 16 (⟨true, 0⟩ : DetectionSample) = p ++ q ∧
        SLEEP_THRESHOLD < (runSamples true p initState).score ∧
        ∀ n, n ≤ q.length →
          (runSamples true (q.take n) (runSamples true p initState)).alarm
            = true) :=
  ⟨by decide,
    alarm_implies_threshold_since_clear true (List.replicate 16 ⟨true, 0⟩)
      (by decide)⟩

/-- C2 counterexample: a frame whose selector returns two face regions,
both with zero eyes, mutates the score twice: from the initial state the
final score is 2, while a frame carrying only the last face gives 1 — so
the earlier face is not discarded and the score is not mutated at most
once per frame. -/
theorem multi_face_double_mutation_cex :
    (getFrame true [0, 0] initState).state.score = 2 ∧
      (getFrame true [0] initState).state.score = 1 := by
  decide

/-- The eyes-closed branch always adds exactly 1 to the score, whatever
the latch and sound condition. -/
theorem stepFace_closed_score (sound : Bool) (s : MachineState) :
    (stepFace sound 0 s).1.score = s.score + 1 := by
  rw [stepFace_closed_eq]
  by_cases h1 : SLEEP_THRESHOLD < s.score + 1
  · by_cases h2 : s.alarm = false ∧ sound = true <;> simp [h1, h2]
  · simp [h1]

/-- C2 amended: every detected face region is consumed by the state
machine in iteration order, mutating the score once per face: a multi-face
frame applies its last face to the state left by the earlier faces (and
its commands accumulate), and a frame of two eyes-closed faces adds 2 to
the score. -/
theorem faces_processed_in_order (sound : Bool) (s : MachineState)
    (fs : List Nat) (e : Nat) :
    getFrame sound (fs ++ [e]) s =
      ⟨(stepFace sound e (runFaces sound fs ⟨s, "Active", []⟩).state).1,
        (stepFace sound e (runFaces sound fs ⟨s, "Active", []⟩).state).2.1,
        (runFaces sound fs ⟨s, "Active", []⟩).cmds ++
          (stepFace sound e (runFaces sound fs ⟨s, "Active", []⟩).state).2.2.toList⟩ ∧
      (getFrame sound [0, 0] s).state.score = s.score + 2 := by
  constructor
  · unfold getFrame
    rw [if_neg (by simp), runFaces_append]
    rfl
  · show (runFaces sound [0, 0] ⟨s, "Active", []⟩).state.score = s.score + 2
    simp only [runFaces]
    rw [stepFace_closed_score, stepFace_closed_score]
    omega

/-- C8 counterexample: from the reachable state after 15 eyes-closed
samples (score 15, latch off), a frame whose selector returns an
eyes-closed face followed by an eyes-open face emits two alarm commands,
starting and then stopping the alarm within a single frame. -/
theorem frame_emits_two_commands_cex :
    (getFrame true [0, 2]
        (runSamples true (List.replicate 15 ⟨true, 0⟩) initState)).cmds
      = [Cmd.StartLoop, Cmd.Stop] := by
  decide

theorem runFaces_cmds_length (sound : Bool) (fs : List Nat) (o : FrameOut) :
    (runFaces sound fs o).cmds.length ≤ o.cmds.length + fs.length := by
  induction fs generalizing o with
  | nil => simp [runFaces]
  | cons e rest ih =>
      simp only [runFaces]
      have htl : (stepFace sound e o.state).2.2.toList.length ≤ 1 := by
        cases (stepFace sound e o.state).2.2 <;> simp
      have hrec := ih ⟨(stepFace sound e o.state).1,
        (stepFace sound e o.state).2.1,
        o.cmds ++ (stepFace sound e o.state).2.2.toList⟩
      simp only [List.length_append, List.length_cons] at hrec ⊢
      omega

/-- C8 amended: at most one alarm command is emitted per face region, so
a frame emits at most as many commands as it has detected faces — in
particular at most one for the single-face frame a detection sample
stands for — but a multi-face frame may emit several. -/
theorem cmds_at_most_one_per_face (sound : Bool) (faces : List Nat)
    (s : MachineState) (a : DetectionSample) :
    (getFrame sound faces s).cmds.length ≤ faces.length ∧
      (step sound a s).cmds.length ≤ 1 := by
  constructor
  · unfold getFrame
    split
    · simp
    · have := runFaces_cmds_length sound faces ⟨s, "Active", []⟩
      simpa using this
  · rcases a with ⟨f, n⟩
    cases f
    · rw [step_noFace_eq]
      simp
    · rw [step_single_eq]
      show (stepFace sound n s).2.2.toList.length ≤ 1
      cases (stepFace sound n s).2.2 <;> simp

/-- C9 counterexample: sixteen single-face eyes-closed frames processed by
session A alone, from a fresh process, flip the single global latch from
off to on — changing the alarm value session B observes — and a session B
created at that point starts with the latch already on, not off; an
eyes-open frame processed by B then silences the alarm A raised. -/
theorem shared_global_latch_cex :
    sessionDemo.alarm = true ∧
      TwoSessions.alarm ⟨false, 0, 0⟩ = false ∧
      (newSessionB sessionDemo).alarm = true ∧
      (frameOn false true [2] sessionDemo).alarm = false := by
  decide

/-- C9 amended: coexisting sessions share the one process-global latch —
a frame in either session writes the latch every session observes, and a
newly created session observes the current global value rather than an
off latch of its own — while each session's score is private: a frame in
one session never changes the other session's score, and a new session
starts its own score at 0. -/
theorem latch_shared_across_sessions (t : TwoSessions) (sound : Bool)
    (faces : List Nat) :
    (frameOn true sound faces t).alarm
        = (getFrame sound faces ⟨t.scoreA, t.alarm⟩).state.alarm ∧
      (frameOn true sound faces t).scoreB = t.scoreB ∧
      (frameOn false sound faces t).alarm
        = (getFrame sound faces ⟨t.scoreB, t.alarm⟩).state.alarm ∧
      (frameOn false sound faces t).scoreA = t.scoreA ∧
      (newSessionB t).alarm = t.alarm ∧
      (newSessionB t).scoreB = 0 := by
  unfold frameOn newSessionB
  simp

end AntiSleep
